import Mathlib

/-!
Formal model of the LogExplain rule-based log interpretation engine.

The TypeScript sources modelled here:
  - `src/engine/log-parser.ts` (metadata extraction),
  - `src/engine/severity-scorer.ts` (per-log and aggregate scoring),
  - `src/knowledge-base/pattern-registry.ts` (confidence matching),
  - `src/engine/explanation-generator.ts` (explanation and incident synthesis),
  - `src/logs/logs.service.ts` (the single-log pipeline).

JavaScript strings are modelled as Lean `String` / `List Char`; JavaScript
numbers are modelled as `Int` for severity scores and `ℚ` for confidences.
JavaScript regular expressions are modelled by a small abstract-syntax tree
(`RE`) together with a backtracking matcher (`matchRE`) that reproduces the
relevant JS semantics: leftmost match, ordered alternation, greedy/lazy
counted repetition with backtracking, word boundaries, case-insensitive
flags, and capture groups.
-/

namespace LogExplain

/-- ASCII view of the JS word-character class `\w` used by `\b`. -/
def jsWordChar (c : Char) : Bool := c.isAlphanum || c = '_'

/-- ASCII view of the JS whitespace class `\s` (plus NBSP); the code under
analysis only ever meets ASCII whitespace. -/
def jsWhitespace (c : Char) : Bool :=
  c = ' ' || c = '\t' || c = '\n' || c = '\r' ||
  c = Char.ofNat 11 || c = Char.ofNat 12 || c = Char.ofNat 0xa0

/-- JS `String.prototype.trim`. -/
def jsTrim (s : String) : String :=
  ⟨((s.data.dropWhile jsWhitespace).reverse.dropWhile jsWhitespace).reverse⟩

/-- JS `String.prototype.toLowerCase` (ASCII). -/
def jsToLower (s : String) : String := ⟨s.data.map Char.toLower⟩

/-- JS `String.prototype.toUpperCase` (ASCII). -/
def jsToUpper (s : String) : String := ⟨s.data.map Char.toUpper⟩

/-- Index of the first occurrence of `needle` in `hay`, if any. -/
def idxOfSub (hay needle : List Char) : Option Nat :=
  go hay 0
where
  go : List Char → Nat → Option Nat
  | [], i => if needle.isPrefixOf ([] : List Char) then some i else none
  | c :: rest, i =>
    if needle.isPrefixOf (c :: rest) then some i else go rest (i + 1)

/-- JS `String.prototype.includes`. -/
def containsSub (s t : String) : Bool := (idxOfSub s.data t.data).isSome

/-- JS `String.prototype.replace` with a plain string pattern: replaces the
first occurrence only. -/
def jsReplaceOnce (s t r : String) : String :=
  match idxOfSub s.data t.data with
  | none => s
  | some i => ⟨s.data.take i ++ r.data ++ s.data.drop (i + t.data.length)⟩

/-- JS truthiness of an optional string (`undefined` and `""` are falsy). -/
def jsTruthy : Option String → Bool
  | some s => !s.isEmpty
  | none => false

/-- JS `a || b` on optional strings (empty string is falsy). -/
def jsOrS (a b : Option String) : Option String :=
  match a with
  | some s => if s.isEmpty then b else some s
  | none => b

/-- JS `String.prototype.substring(0, n)`. -/
def jsSubstr (s : String) (n : Nat) : String := ⟨s.data.take n⟩

-- ── Regular expression AST ────────────────────────────────

/-- Abstract syntax of the regular expressions appearing in the sources.
`cls p lo hi` is a greedy counted repetition of a one-character class
(`hi = none` means unbounded), `clsLazy` its lazy variant, `rep1` a greedy
`(...)+` over a subexpression, `wb` the word boundary `\b`, `bos` the `^`
anchor, and `grp i r` capture group number `i`. -/
inductive RE : Type where
  | eps : RE
  | lit (ci : Bool) (s : String) : RE
  | cls (p : Char → Bool) (lo : Nat) (hi : Option Nat) : RE
  | clsLazy (p : Char → Bool) (lo : Nat) (hi : Option Nat) : RE
  | opt (r : RE) : RE
  | cat (a b : RE) : RE
  | alt2 (a b : RE) : RE
  | wb : RE
  | bos : RE
  | grp (i : Nat) (r : RE) : RE
  | rep1 (r : RE) : RE

/-- Sequence of regex nodes. -/
def seqR (rs : List RE) : RE := rs.foldr RE.cat RE.eps

/-- Ordered alternation `r | r1 | r2 | ...` (leftmost alternative first,
as in JS). -/
def altR (r : RE) (rs : List RE) : RE := rs.foldl RE.alt2 r

/-- Size measure used to pick a sufficient backtracking fuel. -/
def RE.size : RE → Nat
  | .eps => 1
  | .lit _ _ => 1
  | .cls _ _ _ => 1
  | .clsLazy _ _ _ => 1
  | .opt r => r.size + 1
  | .cat a b => a.size + b.size + 1
  | .alt2 a b => a.size + b.size + 1
  | .wb => 1
  | .bos => 1
  | .grp _ r => r.size + 1
  | .rep1 r => r.size + 1

/-- Does the literal `cs` occur at position `pos` of `input`
(case-insensitively when `ci`)? -/
def litCharsAt (ci : Bool) (input : List Char) : Nat → List Char → Bool
  | _, [] => true
  | pos, c :: cs =>
    match input[pos]? with
    | some d =>
      (if ci then d.toLower = c.toLower else d = c) && litCharsAt ci input (pos + 1) cs
    | none => false

/-- Length of the maximal run of `p`-characters starting at `pos`. -/
def runLen (input : List Char) (p : Char → Bool) (pos : Nat) : Nat :=
  ((input.drop pos).takeWhile p).length

/-- JS word boundary `\b` at position `pos`. -/
def boundAt (input : List Char) (pos : Nat) : Bool :=
  let left := if pos = 0 then false else ((input[pos - 1]?).map jsWordChar).getD false
  let right := ((input[pos]?).map jsWordChar).getD false
  left != right

/-- Greedy choice of a repetition count: tries `n`, then `n - 1`, ...,
down to `lo`. -/
def clsTryG (lo : Nat) (k : Nat → Option β) : Nat → Option β
  | 0 => if lo = 0 then k 0 else none
  | n + 1 =>
    if n + 1 < lo then none
    else ((k (n + 1)).orElse (fun _ => clsTryG lo k n))

/-- Lazy choice of a repetition count: tries `n`, then `n + 1`, ...,
for `r` further steps. -/
def clsTryL (k : Nat → Option β) : Nat → Nat → Option β
  | n, 0 => k n
  | n, r + 1 => (k n).orElse (fun _ => clsTryL k (n + 1) r)

/-- Capture list: `(group index, start, stop)`, most recent first. -/
abbrev Caps := List (Nat × Nat × Nat)

/-- Backtracking matcher in continuation-passing style, faithful to JS
semantics (ordered alternation, greedy/lazy repetition with backtracking).
`fuel` only bounds the recursion; `runRE` passes enough of it that no
genuine match is ever cut off. -/
def matchRE (input : List Char) :
    Nat → RE → Nat → Caps → (Nat → Caps → Option (Nat × Caps)) → Option (Nat × Caps)
  | 0, _, _, _, _ => none
  | fuel + 1, re, pos, caps, k =>
    match re with
    | .eps => k pos caps
    | .lit ci s => if litCharsAt ci input pos s.data then k (pos + s.data.length) caps else none
    | .cls p lo hi =>
      let m := runLen input p pos
      let top := min m (hi.getD m)
      if top < lo then none else clsTryG lo (fun cnt => k (pos + cnt) caps) top
    | .clsLazy p lo hi =>
      let m := runLen input p pos
      let top := min m (hi.getD m)
      if top < lo then none else clsTryL (fun cnt => k (pos + cnt) caps) lo (top - lo)
    | .opt r => (matchRE input fuel r pos caps k).orElse (fun _ => k pos caps)
    | .cat a b => matchRE input fuel a pos caps (fun p c => matchRE input fuel b p c k)
    | .alt2 a b =>
      (matchRE input fuel a pos caps k).orElse (fun _ => matchRE input fuel b pos caps k)
    | .wb => if boundAt input pos then k pos caps else none
    | .bos => if pos = 0 then k pos caps else none
    | .grp i r => matchRE input fuel r pos caps (fun p c => k p ((i, pos, p) :: c))
    | .rep1 r =>
      matchRE input fuel r pos caps (fun p c =>
        if pos < p then
          (matchRE input fuel (.rep1 r) p c k).orElse (fun _ => k p c)
        else k p c)

/-- Attempt a match of `re` anchored at `pos`. -/
def runRE (re : RE) (input : List Char) (pos : Nat) : Option (Nat × Caps) :=
  matchRE input ((input.length + 2) * (re.size + 2)) re pos [] (fun p c => some (p, c))

/-- Scan positions `pos, pos+1, ...` (`n` further ones) for the leftmost
match, as JS regex search does. -/
def scanPos (re : RE) (input : List Char) : Nat → Nat → Option (Nat × Nat × Caps)
  | pos, n =>
    match runRE re input pos with
    | some (e, caps) => some (pos, e, caps)
    | none => match n with
      | 0 => none
      | m + 1 => scanPos re input (pos + 1) m

/-- Result of a successful JS `match`: the input, the span of `match[0]`,
and the captures. -/
structure JsRes where
  input : List Char
  start : Nat
  stop : Nat
  caps : Caps

/-- Substring of `input` between positions `a` and `b`. -/
def sliceStr (input : List Char) (a b : Nat) : String := ⟨(input.drop a).take (b - a)⟩

/-- JS `s.match(re)` (first match, with captures). -/
def jsExec (re : RE) (s : String) : Option JsRes :=
  (scanPos re s.data 0 s.data.length).map (fun r => ⟨s.data, r.1, r.2.1, r.2.2⟩)

/-- The whole matched substring `match[0]`. -/
def JsRes.m0 (r : JsRes) : String := sliceStr r.input r.start r.stop

/-- Capture group `match[i]` (`none` when the group did not participate). -/
def JsRes.grp (r : JsRes) (i : Nat) : Option String :=
  (r.caps.find? (fun t => t.1 = i)).map (fun t => sliceStr r.input t.2.1 t.2.2)

/-- JS `re.test(s)`. -/
def jsTest (re : RE) (s : String) : Bool := (jsExec re s).isSome

/-- First match's group `i`. -/
def jsMatchGrp (re : RE) (s : String) (i : Nat) : Option String :=
  (jsExec re s).bind (fun r => r.grp i)

/-- All matches of a global regex, scanning left to right and resuming
after each match (JS `matchAll`); an empty match advances by one. -/
def jsMatchAllFrom (re : RE) (input : List Char) : Nat → Nat → List JsRes
  | _, 0 => []
  | pos, n + 1 =>
    match scanPos re input pos (input.length - pos) with
    | none => []
    | some (s, e, caps) =>
      ⟨input, s, e, caps⟩ :: jsMatchAllFrom re input (if s < e then e else e + 1) n

/-- JS `s.matchAll(re)`. -/
def jsMatchAll (re : RE) (s : String) : List JsRes :=
  jsMatchAllFrom re s.data 0 (s.data.length + 1)

-- ── Character classes of log-parser.ts ────────────────────

/-- Class `\d`. -/
def isDg (c : Char) : Bool := c.isDigit

/-- Class `[A-Z]`. -/
def isUpperA (c : Char) : Bool := c.isUpper

/-- Class `[a-z]`. -/
def isLowerA (c : Char) : Bool := c.isLower

/-- Class `[+-]`. -/
def isSignCh (c : Char) : Bool := c = '+' || c = '-'

/-- Class `[=:\s]`. -/
def isEqColWs (c : Char) : Bool := c = '=' || c = ':' || jsWhitespace c

/-- Class `[\s_-]`. -/
def isWsUndDash (c : Char) : Bool := jsWhitespace c || c = '_' || c = '-'

/-- Class `['"]` (double or single quote). -/
def isQuoteCh (c : Char) : Bool := c = '"' || c = Char.ofNat 39

/-- Class `[\/\s]`. -/
def isSlashWs (c : Char) : Bool := c = '/' || jsWhitespace c

/-- Class `[A-Z0-9_]` (case-sensitive). -/
def isUpNum (c : Char) : Bool := c.isUpper || c.isDigit || c = '_'

/-- Class `\S`. -/
def isNotWs (c : Char) : Bool := !jsWhitespace c

/-- Class `[^\s"']`. -/
def isNotWsQuote (c : Char) : Bool :=
  !jsWhitespace c && c ≠ '"' && c ≠ Char.ofNat 39

/-- Class `[^\s\\]`. -/
def isNotWsBack (c : Char) : Bool := !jsWhitespace c && c ≠ '\\'

/-- Class `[a-zA-Z0-9._@-]`. -/
def isUnameCh (c : Char) : Bool :=
  c.isAlphanum || c = '.' || c = '_' || c = '@' || c = '-'

/-- Class `[a-zA-Z0-9._-]`. -/
def isFpCh (c : Char) : Bool := c.isAlphanum || c = '.' || c = '_' || c = '-'

/-- Class `[a-zA-Z0-9._~:/?#[\]@!$&'()*+,;=-]` of URL_PATTERN. -/
def isUrlCh (c : Char) : Bool :=
  c.isAlphanum || "._~:/?#[]@!$&()*+,;=-".contains c || c = Char.ofNat 39

/-- Shorthand `\d{lo,hi}`. -/
def dN (lo hi : Nat) : RE := .cls isDg lo (some hi)

/-- Shorthand `\d+`. -/
def dP : RE := .cls isDg 1 none

/-- Shorthand `\s+`. -/
def wsP : RE := .cls jsWhitespace 1 none

/-- Case-sensitive literal. -/
def l0 (s : String) : RE := .lit false s

/-- Case-insensitive literal (under a `/i` flag). -/
def li (s : String) : RE := .lit true s

-- ── Regexes of log-parser.ts ──────────────────────────────

/-- TIMESTAMP_PATTERNS[0]:
`/(\d{4}-\d{2}-\d{2}T\d{2}:\d{2}:\d{2}(?:\.\d+)?(?:Z|[+-]\d{2}:?\d{2})?)/` -/
def tsIso : RE :=
  .grp 1 (seqR [dN 4 4, l0 "-", dN 2 2, l0 "-", dN 2 2, l0 "T",
    dN 2 2, l0 ":", dN 2 2, l0 ":", dN 2 2,
    .opt (seqR [l0 ".", dP]),
    .opt (altR (l0 "Z") [seqR [.cls isSignCh 1 (some 1), dN 2 2, .opt (l0 ":"), dN 2 2]])])

/-- TIMESTAMP_PATTERNS[1]: `/([A-Z][a-z]{2}\s+\d{1,2}\s+\d{2}:\d{2}:\d{2})/` -/
def tsSyslog : RE :=
  .grp 1 (seqR [.cls isUpperA 1 (some 1), .cls isLowerA 2 (some 2), wsP,
    dN 1 2, wsP, dN 2 2, l0 ":", dN 2 2, l0 ":", dN 2 2])

/-- TIMESTAMP_PATTERNS[2]:
`/(\d{2}\/[A-Z][a-z]{2}\/\d{4}:\d{2}:\d{2}:\d{2}\s+[+-]\d{4})/` -/
def tsCommon : RE :=
  .grp 1 (seqR [dN 2 2, l0 "/", .cls isUpperA 1 (some 1), .cls isLowerA 2 (some 2),
    l0 "/", dN 4 4, l0 ":", dN 2 2, l0 ":", dN 2 2, l0 ":", dN 2 2,
    wsP, .cls isSignCh 1 (some 1), dN 4 4])

/-- TIMESTAMP_PATTERNS[3]: `/(\d{4}-\d{2}-\d{2}\s+\d{2}:\d{2}:\d{2}(?:\.\d+)?)/` -/
def tsDateTime : RE :=
  .grp 1 (seqR [dN 4 4, l0 "-", dN 2 2, l0 "-", dN 2 2, wsP,
    dN 2 2, l0 ":", dN 2 2, l0 ":", dN 2 2, .opt (seqR [l0 ".", dP])])

/-- TIMESTAMP_PATTERNS[4]: `/\b(1\d{9}(?:\d{3})?)\b/` -/
def tsUnix : RE :=
  seqR [.wb, .grp 1 (seqR [l0 "1", dN 9 9, .opt (dN 3 3)]), .wb]

/-- The five timestamp patterns, in source priority order. -/
def tsPatterns : List RE := [tsIso, tsSyslog, tsCommon, tsDateTime, tsUnix]

/-- LOG_LEVEL_PATTERN (case-insensitive, alternatives in source order). -/
def logLevelRE : RE :=
  seqR [.wb, .grp 1 (altR (li "EMERG") [li "EMERGENCY", li "ALERT", li "CRIT",
    li "CRITICAL", li "ERR", li "ERROR", li "WARN", li "WARNING", li "NOTICE",
    li "INFO", li "DEBUG", li "TRACE", li "FATAL", li "VERBOSE"]), .wb]

/-- PID_PATTERN: `/\bpid[=:\s]+(\d+)\b|\[(\d+)\]|\bPID\s+(\d+)\b/i` -/
def pidRE : RE :=
  altR (seqR [.wb, li "pid", .cls isEqColWs 1 none, .grp 1 dP, .wb])
    [seqR [l0 "[", .grp 2 dP, l0 "]"],
     seqR [.wb, li "PID", wsP, .grp 3 dP, .wb]]

/-- IP_PATTERN: `/\b(\d{1,3}\.\d{1,3}\.\d{1,3}\.\d{1,3})\b/` -/
def ipRE : RE :=
  seqR [.wb, .grp 1 (seqR [dN 1 3, l0 ".", dN 1 3, l0 ".", dN 1 3, l0 ".", dN 1 3]), .wb]

/-- The explicit-port half of PORT_PATTERN: `/\bport[=:\s]+(\d{2,5})\b/i` -/
def portEqRE : RE :=
  seqR [.wb, li "port", .cls isEqColWs 1 none, .grp 1 (dN 2 5), .wb]

/-- The `ip:port` adjacency regex built in findPort; `escapeRegExp` in the
source only makes the IP literal, which the AST literal is by construction. -/
def ipPortRE (ip : String) : RE :=
  seqR [.wb, l0 ip, l0 ":", .grp 1 (dN 2 5), .wb]

/-- The findPort fallback regex `/:(\d{2,5})\b/g`. -/
def portAnyRE : RE := seqR [l0 ":", .grp 1 (dN 2 5), .wb]

/-- COMMON_ERROR_CODE_PATTERN (case-sensitive). -/
def commonErrRE : RE :=
  seqR [.wb, .grp 1 (altR (l0 "ECONNREFUSED") [l0 "ECONNRESET", l0 "ETIMEDOUT",
    l0 "EPIPE", l0 "EADDRINUSE", l0 "EADDRNOTAVAIL", l0 "EAI_AGAIN",
    l0 "ENOTFOUND", l0 "ENOENT", l0 "ENOSPC", l0 "EACCES", l0 "EPERM",
    l0 "EHOSTUNREACH", l0 "ENETUNREACH", l0 "ECONNABORTED"]), .wb]

/-- ERROR_CODE_PATTERNS[0]: `/\b(E[A-Z0-9_]{3,})\b/` -/
def errCodeRE1 : RE := seqR [.wb, .grp 1 (seqR [l0 "E", .cls isUpNum 3 none]), .wb]

/-- ERROR_CODE_PATTERNS[1]: `/\berr(?:or)?[\s_-]*(?:code)?[=:\s]+([A-Z0-9_]+)\b/i`
(the capture class is `[A-Z0-9_]` under `/i`, i.e. word characters). -/
def errCodeRE2 : RE :=
  seqR [.wb, li "err", .opt (li "or"), .cls isWsUndDash 0 none, .opt (li "code"),
    .cls isEqColWs 1 none, .grp 1 (.cls jsWordChar 1 none), .wb]

/-- ERROR_CODE_PATTERNS[2]: `/\b(\d{3})\s+[A-Z][a-z]/` -/
def errCodeRE3 : RE :=
  seqR [.wb, .grp 1 (dN 3 3), wsP, .cls isUpperA 1 (some 1), .cls isLowerA 1 (some 1)]

/-- ERROR_CODE_PATTERNS[3]: `/\bcode[=:\s]+['"]?([A-Z0-9_]+)['"]?\b/i` -/
def errCodeRE4 : RE :=
  seqR [.wb, li "code", .cls isEqColWs 1 none, .opt (.cls isQuoteCh 1 (some 1)),
    .grp 1 (.cls jsWordChar 1 none), .opt (.cls isQuoteCh 1 (some 1)), .wb]

/-- ERROR_CODE_PATTERNS in source order. -/
def errCodePatterns : List RE := [errCodeRE1, errCodeRE2, errCodeRE3, errCodeRE4]

/-- DISALLOWED_ERROR_CODES. -/
def disallowedErrorCodes : List String :=
  ["ERROR", "ERR", "WARN", "WARNING", "INFO", "DEBUG", "TRACE", "FATAL",
   "CRIT", "CRITICAL", "ALERT", "NOTICE", "VERBOSE", "EMERG", "EMERGENCY"]

/-- HTTP_STATUS_PATTERN (three alternatives, `/i`). -/
def httpStatusRE : RE :=
  altR (seqR [.wb, li "HTTP", .cls isSlashWs 1 none, dN 1 1, l0 ".", dN 1 1,
      .cls isQuoteCh 0 none, wsP, .grp 1 (dN 3 3), .wb])
    [seqR [.wb, li "status", .cls isEqColWs 1 none, .grp 2 (dN 3 3), .wb],
     seqR [.wb, .grp 3 (dN 3 3), wsP,
       altR (li "OK") [li "Created", li "Accepted", seqR [li "Bad", wsP, li "Request"],
         li "Unauthorized", li "Forbidden", seqR [li "Not", wsP, li "Found"],
         seqR [li "Internal", wsP, li "Server"],
         seqR [li "Service", wsP, li "Unavailable"],
         seqR [li "Gateway", wsP, li "Time"]]]]

/-- HTTP_METHOD_PATTERN (case-sensitive). -/
def httpMethodRE : RE :=
  seqR [.wb, .grp 1 (altR (l0 "GET") [l0 "POST", l0 "PUT", l0 "PATCH", l0 "DELETE",
    l0 "HEAD", l0 "OPTIONS", l0 "CONNECT", l0 "TRACE"]), .wb]

/-- URL_PATTERN. -/
def urlRE : RE :=
  altR (seqR [l0 "http", .opt (l0 "s"), l0 "://", .cls isNotWsQuote 1 none])
    [seqR [l0 "/", .cls isUrlCh 1 none]]

/-- USERNAME_PATTERN: `/\buser(?:name)?[=:\s]+['"]?([a-zA-Z0-9._@-]+)['"]?\b/i` -/
def usernameRE : RE :=
  seqR [.wb, li "user", .opt (li "name"), .cls isEqColWs 1 none,
    .opt (.cls isQuoteCh 1 (some 1)), .grp 1 (.cls isUnameCh 1 none),
    .opt (.cls isQuoteCh 1 (some 1)), .wb]

/-- FILEPATH_PATTERN. -/
def filePathRE : RE :=
  altR (seqR [l0 "/", .rep1 (seqR [.cls isFpCh 1 none, l0 "/"]), .cls isFpCh 1 none])
    [seqR [.cls isUpperA 1 (some 1), l0 ":", l0 "\\",
      .opt (.rep1 (seqR [.cls isNotWsBack 1 none, l0 "\\"])), .cls isNotWsBack 1 none]]

/-- SOURCE_PATTERNS[0]: `/^(?:\S+\s+\d+\s+\d+:\d+:\d+)\s+(\S+)\s+(\S+?)(?:\[\d+\])?:/` -/
def srcRE1 : RE :=
  seqR [.bos, .cls isNotWs 1 none, wsP, dP, wsP, dP, l0 ":", dP, l0 ":", dP,
    wsP, .grp 1 (.cls isNotWs 1 none), wsP, .grp 2 (.clsLazy isNotWs 1 none),
    .opt (seqR [l0 "[", dP, l0 "]"]), l0 ":"]

/-- SOURCE_PATTERNS[1]: `/(\S+\.service)/` -/
def srcRE2 : RE := .grp 1 (seqR [.cls isNotWs 1 none, l0 ".service"])

/-- SOURCE_PATTERNS[2]: `/^(\S+)\s+\|/` -/
def srcRE3 : RE := seqR [.bos, .grp 1 (.cls isNotWs 1 none), wsP, l0 "|"]

/-- SOURCE_PATTERNS[3]: `/\[([a-zA-Z0-9._-]+)\]|\(([a-zA-Z0-9._-]+)\)/` -/
def srcRE4 : RE :=
  altR (seqR [l0 "[", .grp 1 (.cls isFpCh 1 none), l0 "]"])
    [seqR [l0 "(", .grp 2 (.cls isFpCh 1 none), l0 ")"]]

/-- SOURCE_PATTERNS in source order. -/
def sourcePatterns : List RE := [srcRE1, srcRE2, srcRE3, srcRE4]

-- ── findPort and parseLogLine ─────────────────────────────

/-- The findPort skip test `/^:\d{2}\b/.test(scanText.slice(end, end + 3))`:
the slice is at most three characters, so the test holds exactly when the
three characters after the match are a colon and two digits (the trailing
`\b` always holds at the end of the slice). -/
def timeSepAfter (input : List Char) (e : Nat) : Bool :=
  match input[e]?, input[e + 1]?, input[e + 2]? with
  | some c, some d1, some d2 => c = ':' && d1.isDigit && d2.isDigit
  | _, _, _ => false

/-- Model of `findPort` from log-parser.ts: `ip:port` adjacency first, then
an explicit `port=` token, then the first `:(\d{2,5})\b` match not judged a
time fragment by the slice test (the `for ... continue ... return` loop). -/
def findPort (scanText : String) (ipAddress : Option String) : Option String :=
  let viaIp : Option String :=
    if jsTruthy ipAddress then jsMatchGrp (ipPortRE (ipAddress.getD "")) scanText 1
    else none
  match viaIp with
  | some p => some p
  | none =>
    match jsMatchGrp portEqRE scanText 1 with
    | some p => some p
    | none =>
      ((jsMatchAll portAnyRE scanText).find?
        (fun m => !timeSepAfter m.input m.stop)).bind (fun m => m.grp 1)

/-- ParsedLogMetadata of log-parser.ts (optional fields are `undefined`
when absent). -/
structure ParsedLogMetadata where
  timestamp : Option String := none
  logLevel : Option String := none
  source : Option String := none
  pid : Option String := none
  errorCode : Option String := none
  ipAddress : Option String := none
  port : Option String := none
  username : Option String := none
  filePath : Option String := none
  httpStatus : Option String := none
  httpMethod : Option String := none
  url : Option String := none
  messageBody : String := ""
deriving Repr, DecidableEq

/-- The `.replace(/^\s*[-:]\s*/, '')` step of messageBody construction. -/
def stripLeadSep (s : String) : String :=
  match s.data.dropWhile jsWhitespace with
  | c :: rest => if c = '-' || c = ':' then ⟨rest.dropWhile jsWhitespace⟩ else s
  | [] => s

/-- Model of `parseLogLine` from log-parser.ts, step for step. -/
def parseLogLine (rawLog : String) : ParsedLogMetadata :=
  let trimmed := jsTrim rawLog
  let tsHit : Option (String × Option String) :=
    tsPatterns.findSome? (fun re => (jsExec re trimmed).map (fun r => (r.m0, r.grp 1)))
  let timestamp := tsHit.bind (fun h => h.2)
  let tsTok : Option String := tsHit.map (fun h => h.1)
  let scanText := match tsTok with
    | some tok => jsReplaceOnce trimmed tok " "
    | none => trimmed
  let logLevel := (jsMatchGrp logLevelRE scanText 1).map jsToUpper
  let pid := (jsExec pidRE scanText).bind
    (fun r => jsOrS (jsOrS (r.grp 1) (r.grp 2)) (r.grp 3))
  let ipAddress := jsMatchGrp ipRE scanText 1
  let port := findPort scanText ipAddress
  let errorCode :=
    match jsMatchGrp commonErrRE scanText 1 with
    | some c => some c
    | none =>
      errCodePatterns.findSome? (fun re =>
        match jsMatchGrp re scanText 1 with
        | some cand =>
          let c := jsToUpper cand
          if disallowedErrorCodes.contains c then none else some c
        | none => none)
  let httpStatus := (jsExec httpStatusRE scanText).bind
    (fun r => jsOrS (jsOrS (r.grp 1) (r.grp 2)) (r.grp 3))
  let httpMethod := jsMatchGrp httpMethodRE scanText 1
  let url := (jsExec urlRE scanText).map (fun r => r.m0)
  let username := jsMatchGrp usernameRE scanText 1
  let filePath := (jsExec filePathRE scanText).map (fun r => r.m0)
  let source := (sourcePatterns.findSome? (fun re =>
    (jsExec re scanText).map (fun r => jsOrS (r.grp 1) (r.grp 2)))).join
  let messageBody :=
    let mb := match tsTok with
      | some tok => jsReplaceOnce trimmed tok ""
      | none => trimmed
    jsTrim (stripLeadSep mb)
  { timestamp := timestamp, logLevel := logLevel, source := source, pid := pid,
    errorCode := errorCode, ipAddress := ipAddress, port := port,
    username := username, filePath := filePath, httpStatus := httpStatus,
    httpMethod := httpMethod, url := url, messageBody := messageBody }

-- ── severity-scorer.ts ────────────────────────────────────

/-- SeverityLevel of knowledge-base/types.ts. -/
inductive SeverityLevel : Type where
  | LOW : SeverityLevel
  | MEDIUM : SeverityLevel
  | HIGH : SeverityLevel
  | CRITICAL : SeverityLevel
deriving Repr, DecidableEq

/-- String form of a severity level (the TS values are these strings). -/
def levelName : SeverityLevel → String
  | .LOW => "LOW"
  | .MEDIUM => "MEDIUM"
  | .HIGH => "HIGH"
  | .CRITICAL => "CRITICAL"

/-- BASE_SCORES of severity-scorer.ts. -/
def BASE_SCORES : SeverityLevel → Int
  | .LOW => 15
  | .MEDIUM => 40
  | .HIGH => 70
  | .CRITICAL => 90

/-- scoreToLevel of severity-scorer.ts. -/
def scoreToLevel (score : Int) : SeverityLevel :=
  if 80 ≤ score then .CRITICAL
  else if 55 ≤ score then .HIGH
  else if 30 ≤ score then .MEDIUM
  else .LOW

/-- SeverityResult of severity-scorer.ts (scores are JS integers here). -/
structure SeverityResult where
  level : SeverityLevel
  score : Int
  reason : String
deriving Repr, DecidableEq

/-- mapLogLevelToSeverity of severity-scorer.ts; `if (!logLevel)` treats
both `undefined` and the empty string as absent. -/
def mapLogLevelToSeverity (logLevel : Option String) : SeverityLevel :=
  if !jsTruthy logLevel then .MEDIUM
  else
    let u := jsToUpper (logLevel.getD "")
    if u = "EMERG" || u = "EMERGENCY" || u = "FATAL" || u = "CRIT" || u = "CRITICAL" then .CRITICAL
    else if u = "ERR" || u = "ERROR" || u = "ALERT" then .HIGH
    else if u = "WARN" || u = "WARNING" || u = "NOTICE" then .MEDIUM
    else .LOW

/-- SeverityModifier of knowledge-base/types.ts; the trigger regex is
rule-base data, so it is abstracted to its observable behaviour
(`condition.test(rawLog)`). -/
structure SeverityModifier where
  condition : String → Bool
  severity : SeverityLevel
  reason : String

/-- ExplanationTemplate of knowledge-base/types.ts. -/
structure ExplanationTemplate where
  summary : String
  rootCause : String
  possibleCauses : List String
  recommendedFixes : List String
  additionalContext : Option String := none

/-- LogPattern of knowledge-base/types.ts. The rule regexes are rule-base
data; each is abstracted to the single observation the engine makes of it,
`logLine.match(regex)?.[0].length` (`none` when it does not match). -/
structure LogPattern where
  id : String
  name : String
  category : String
  patterns : List (String → Option Nat)
  keywords : List String
  errorCodes : Option (List String) := none
  severity : SeverityLevel
  severityModifiers : Option (List SeverityModifier) := none
  explanation : ExplanationTemplate

/-- criticalContextKeywords[0]: `/production|prod\b/i`. -/
def ctxProdRE : RE := altR (li "production") [seqR [li "prod", .wb]]

/-- The six criticalContextKeywords regexes of calculateSeverity. -/
def criticalContextKeywords : List RE :=
  [ctxProdRE, li "outage",
   seqR [li "data", .cls jsWhitespace 0 none, li "loss"],
   seqR [li "security", wsP, li "breach"],
   li "ransomware", li "exploit"]

/-- The repetition-hint regex `/repeated|recurring|frequent|multiple|consecutive/i`. -/
def repHintRE : RE :=
  altR (li "repeated") [li "recurring", li "frequent", li "multiple", li "consecutive"]

/-- calculateSeverity of severity-scorer.ts. `Math.round((score + lvl) / 2)`
is written as `(score + lvl + 1) / 2`; both operands are nonnegative there,
where integer division is the JS floor and rounding is half-up. -/
def calculateSeverity (rawLog : String) (matchedPattern : Option LogPattern)
    (extractedLogLevel : Option String := none) : SeverityResult :=
  match matchedPattern with
  | none =>
    let levelFromLog := mapLogLevelToSeverity extractedLogLevel
    let score := BASE_SCORES levelFromLog
    let reason := "No known pattern matched. Severity derived from log level: " ++
      (match extractedLogLevel with
       | some l => if l.isEmpty then "unknown" else l
       | none => "unknown")
    { level := scoreToLevel score, score := score, reason := reason }
  | some p =>
    let start : Int × String :=
      (BASE_SCORES p.severity,
       "Base severity: " ++ levelName p.severity ++ " (pattern: " ++ p.id ++ ")")
    let afterMods : Int × String :=
      (p.severityModifiers.getD []).foldl (fun acc m =>
        if m.condition rawLog then
          let modifiedBase := BASE_SCORES m.severity
          if acc.1 < modifiedBase then (modifiedBase, m.reason) else acc
        else acc) start
    let score2 : Int :=
      if jsTruthy extractedLogLevel then
        let logLevelScore := BASE_SCORES (mapLogLevelToSeverity extractedLogLevel)
        if afterMods.1 < logLevelScore then (afterMods.1 + logLevelScore + 1) / 2
        else afterMods.1
      else afterMods.1
    let score3 : Int :=
      if criticalContextKeywords.any (fun re => jsTest re rawLog) then min (score2 + 10) 100
      else score2
    let score4 : Int := if jsTest repHintRE rawLog then min (score3 + 5) 100 else score3
    let score5 : Int := max 0 (min 100 score4)
    { level := scoreToLevel score5, score := score5, reason := afterMods.2 }

/-- aggregateSeverity of severity-scorer.ts. -/
def aggregateSeverity (scores : List SeverityResult) : SeverityResult :=
  match scores with
  | [] => { level := .LOW, score := 0, reason := "No logs to analyze" }
  | s :: rest =>
    let maxScore := rest.foldl (fun m x => max m x.score) s.score
    let highCount := ((s :: rest).filter (fun x => 55 ≤ x.score)).length
    let criticalCount := ((s :: rest).filter (fun x => 80 ≤ x.score)).length
    let a1 := if 3 ≤ highCount then min (maxScore + 5) 100 else maxScore
    let a2 := if 5 ≤ highCount then min (a1 + 5) 100 else a1
    let a3 := if 2 ≤ criticalCount then min (a2 + 10) 100 else a2
    { level := scoreToLevel a3, score := a3,
      reason := "Aggregate of " ++ toString (s :: rest).length ++ " logs. Max score: " ++
        toString maxScore ++ ". High-severity count: " ++ toString highCount ++
        ". Critical count: " ++ toString criticalCount ++ "." }

-- ── pattern-registry.ts ───────────────────────────────────

/-- JS `Math.round(x * 100) / 100` (round half toward positive infinity). -/
def jsRound2 (q : ℚ) : ℚ := ((round (q * 100) : ℤ) : ℚ) / 100

/-- One step of the regex loop of findMatchingPatterns: fold the running
maximum with `min(0.6 + matchRatio * 0.3, 0.95)` when the regex matches. -/
def confStep (logLine : String) (m : ℚ) (f : String → Option Nat) : ℚ :=
  match f logLine with
  | some len =>
    max m (min (6/10 + ((len : ℚ) / (logLine.length : ℚ)) * (3/10)) (95/100))
  | none => m

/-- Step 3 of the confidence algorithm: a flat one-time `+0.10` boost,
capped at 0.99, when any declared error code occurs verbatim in the
line. -/
def applyCodeBoost (logLine : String) : Option (List String) → ℚ → ℚ
  | some codes, withKw =>
    if codes.any (fun code => containsSub logLine code) then min (withKw + 1/10) (99/100)
    else withKw
  | none, withKw => withKw

/-- Confidence of one rule against a line, as computed inside
`findMatchingPatterns`; `none` when the rule contributes no candidate.
On the empty line JS computes `matchRatio = 0/0 = NaN`, every later
comparison `maxConfidence > 0` is then false and no candidate is pushed,
whether or not a regex matched; the `length = 0` guard models exactly
that. -/
def ruleConfidence (logLine : String) (p : LogPattern) : Option ℚ :=
  if logLine.length = 0 then none
  else
    let base : ℚ := p.patterns.foldl (confStep logLine) 0
    if 0 < base then
      let keywordHits := (p.keywords.filter (fun k =>
        containsSub (jsToLower logLine) (jsToLower k))).length
      let withKw := min (base + min ((keywordHits : ℚ) * (5/100)) (15/100)) (99/100)
      some (jsRound2 (applyCodeBoost logLine p.errorCodes withKw))
    else none

/-- Stable insertion of `x` before the first element `y` with `le x y`. -/
def ordInsert (le : α → α → Bool) (x : α) : List α → List α
  | [] => [x]
  | y :: l => if le x y then x :: y :: l else y :: ordInsert le x l

/-- Stable insertion sort: the unique output of a stable sort (which JS
`Array.prototype.sort` is, per ES2019) for the total preorder `le`. -/
def insSort (le : α → α → Bool) : List α → List α
  | [] => []
  | x :: l => ordInsert le x (insSort le l)

/-- Order used by the matcher sort `(a, b) => b.confidence - a.confidence`:
`a` may precede `b` exactly when `b.confidence ≤ a.confidence`. -/
def confGe (a b : LogPattern × ℚ) : Bool := decide (b.2 ≤ a.2)

/-- The unsorted candidate list built by the main loop of
`findMatchingPatterns`, in Rule Base iteration order. -/
def candidateList (patterns : List LogPattern) (logLine : String) :
    List (LogPattern × ℚ) :=
  patterns.filterMap (fun p => (ruleConfidence logLine p).map (fun c => (p, c)))

/-- findMatchingPatterns of pattern-registry.ts: all candidates, sorted by
confidence descending with ties in iteration order. -/
def findMatchingPatterns (patterns : List LogPattern) (logLine : String) :
    List (LogPattern × ℚ) :=
  insSort confGe (candidateList patterns logLine)

-- ── explanation-generator.ts ──────────────────────────────

/-- LogExplanation of knowledge-base/types.ts; the metadata record is an
insertion-ordered key/value list. -/
structure LogExplanation where
  rawLog : String
  patternId : String
  summary : String
  category : String
  severity : SeverityLevel
  severityScore : Int
  rootCause : String
  possibleCauses : List String
  recommendedFixes : List String
  metadata : List (String × String)
  timestamp : Option String := none
  source : Option String := none
  confidence : ℚ
  engine : String

/-- The metadata map built on the matched-pattern path of buildExplanation
(each field included only when truthy, in source order). -/
def matchedMetadataMap (md : ParsedLogMetadata) : List (String × String) :=
  (if jsTruthy md.logLevel then [("logLevel", md.logLevel.getD "")] else []) ++
  (if jsTruthy md.pid then [("pid", md.pid.getD "")] else []) ++
  (if jsTruthy md.ipAddress then [("ipAddress", md.ipAddress.getD "")] else []) ++
  (if jsTruthy md.port then [("port", md.port.getD "")] else []) ++
  (if jsTruthy md.errorCode then [("errorCode", md.errorCode.getD "")] else []) ++
  (if jsTruthy md.username then [("username", md.username.getD "")] else []) ++
  (if jsTruthy md.filePath then [("filePath", md.filePath.getD "")] else []) ++
  (if jsTruthy md.httpStatus then [("httpStatus", md.httpStatus.getD "")] else []) ++
  (if jsTruthy md.httpMethod then [("httpMethod", md.httpMethod.getD "")] else []) ++
  (if jsTruthy md.url then [("url", md.url.getD "")] else [])

/-- The metadata map built by buildUnknownExplanation (only these four
fields are considered). -/
def unknownMetadataMap (md : ParsedLogMetadata) : List (String × String) :=
  (if jsTruthy md.logLevel then [("logLevel", md.logLevel.getD "")] else []) ++
  (if jsTruthy md.errorCode then [("errorCode", md.errorCode.getD "")] else []) ++
  (if jsTruthy md.ipAddress then [("ipAddress", md.ipAddress.getD "")] else []) ++
  (if jsTruthy md.httpStatus then [("httpStatus", md.httpStatus.getD "")] else [])

/-- The summary chosen by buildUnknownExplanation from the extracted log
level. -/
def unknownSummary (md : ParsedLogMetadata) : String :=
  if jsTruthy md.logLevel then
    let levelLabel := jsToUpper (md.logLevel.getD "")
    if ["ERROR", "ERR", "FATAL", "CRIT", "CRITICAL", "EMERG"].contains levelLabel then
      "An error-level log entry was detected but does not match any known pattern. Manual review is recommended."
    else if ["WARN", "WARNING"].contains levelLabel then
      "A warning-level log entry was detected but does not match any known pattern. It may indicate a non-critical issue."
    else
      "An informational log entry was detected with log level \"" ++ levelLabel ++
        "\". No specific issue pattern was matched."
  else
    "This log entry could not be matched to a known pattern in the knowledge base."

/-- buildUnknownExplanation of explanation-generator.ts. -/
def buildUnknownExplanation (rawLog : String) (md : ParsedLogMetadata)
    (severity : SeverityResult) : LogExplanation :=
  { rawLog := rawLog
    patternId := "unknown"
    summary := unknownSummary md
    category := "unknown"
    severity := severity.level
    severityScore := severity.score
    rootCause := "Unable to determine root cause — this log does not match any known pattern."
    possibleCauses :=
      ["New or uncommon error not yet in the knowledge base",
       "Custom application-specific log format",
       "Informational log with no actionable issue"]
    recommendedFixes :=
      ["Review the log message manually for context",
       "Check application documentation for this specific message",
       "If this is a recurring issue, consider adding a custom pattern to the knowledge base"]
    metadata := unknownMetadataMap md
    timestamp := md.timestamp
    source := md.source
    confidence := 0
    engine := "rule-based" }

/-- buildExplanation of explanation-generator.ts. -/
def buildExplanation (rawLog : String) (matchedPattern : Option LogPattern)
    (md : ParsedLogMetadata) (severity : SeverityResult) (confidence : ℚ) :
    LogExplanation :=
  match matchedPattern with
  | none => buildUnknownExplanation rawLog md severity
  | some p =>
    { rawLog := rawLog
      patternId := p.id
      summary := p.explanation.summary
      category := p.category
      severity := severity.level
      severityScore := severity.score
      rootCause := p.explanation.rootCause
      possibleCauses := p.explanation.possibleCauses
      recommendedFixes := p.explanation.recommendedFixes
      metadata := matchedMetadataMap md
      timestamp := md.timestamp
      source := md.source
      confidence := confidence
      engine := "rule-based" }

/-- TimelineEvent of knowledge-base/types.ts. -/
structure TimelineEvent where
  timestamp : Option String := none
  summary : String
  severity : SeverityLevel
  category : String
deriving Repr, DecidableEq

/-- IncidentSummary of knowledge-base/types.ts (categoryBreakdown is the
insertion-ordered key/count list of the JS object). -/
structure IncidentSummary where
  title : String
  summary : String
  severity : SeverityLevel
  severityScore : Int
  rootCauseChain : List String
  affectedSystems : List String
  timeline : List TimelineEvent
  recommendedActions : List String
  totalLogsAnalyzed : Nat
  categoryBreakdown : List (String × Nat)
  correlations : List String

/-- JS `[...new Set(l)]`: deduplication keeping first occurrences in
order. -/
def jsSetDedup (l : List String) : List String :=
  go [] l
where
  go (seen : List String) : List String → List String
  | [] => []
  | x :: rest => if seen.contains x then go seen rest else x :: go (x :: seen) rest

/-- Increment of `categoryBreakdown[cat]` preserving JS object key
insertion order. -/
def bumpCount (m : List (String × Nat)) (k : String) : List (String × Nat) :=
  match m with
  | [] => [(k, 1)]
  | (k0, n) :: rest => if k0 = k then (k0, n + 1) :: rest else (k0, n) :: bumpCount rest k

/-- The categoryBreakdown loop of buildIncidentSummary. -/
def categoryBreakdownOf (exps : List LogExplanation) : List (String × Nat) :=
  exps.foldl (fun m e => bumpCount m e.category) []

/-- Lexicographic (code-point) comparison of character lists: `x ≤ y`. -/
def lexLe : List Char → List Char → Bool
  | [], _ => true
  | _ :: _, [] => false
  | a :: as, b :: bs =>
    if a.toNat < b.toNat then true
    else if b.toNat < a.toNat then false
    else lexLe as bs

/-- The timeline sort comparator of buildIncidentSummary on the optional
timestamps, as the relation "may come first": both timestamps missing
compare equal, a missing timestamp sorts after any present one, two
timestamps compare by `localeCompare`, modelled as code-point
lexicographic string order (the spec fixes ISO-8601-lexicographic
comparison). -/
def tlCmpLe : Option String → Option String → Bool
  | none, none => true
  | none, some _ => false
  | some _, none => true
  | some x, some y => lexLe x.data y.data

/-- The timeline sort comparator applied to two events. -/
def tlLe (a b : TimelineEvent) : Bool := tlCmpLe a.timestamp b.timestamp

/-- The TimelineEvent built for one explanation inside buildIncidentSummary
(summary truncated by `substring(0, 150)`). -/
def timelineEventOf (e : LogExplanation) : TimelineEvent :=
  { timestamp := e.timestamp
    summary := jsSubstr e.summary 150
    severity := e.severity
    category := e.category }

/-- detectCorrelations of explanation-generator.ts. -/
def detectCorrelations (exps : List LogExplanation) : List String :=
  let categories := exps.map (fun e => e.category)
  let patternIds := exps.map (fun e => e.patternId)
  (if categories.contains "database" &&
      (categories.contains "timeout" || patternIds.contains "API_TIMEOUT") then
    ["Database issues detected alongside API timeouts — the database may be the root cause of slow API responses"]
   else []) ++
  (if categories.contains "memory" && categories.contains "process" then
    ["Memory issues detected alongside process crashes — out-of-memory condition likely caused the crash"]
   else []) ++
  (if categories.contains "authentication" && categories.contains "security" then
    ["Authentication failures alongside security alerts — potential coordinated attack"]
   else []) ++
  (if categories.contains "dns" && categories.contains "network" then
    ["DNS resolution failures detected alongside network errors — DNS may be the initial failure point"]
   else []) ++
  (if categories.contains "disk" && categories.contains "database" then
    ["Disk space issues alongside database errors — disk full condition may have caused database failure"]
   else []) ++
  (if categories.contains "configuration" && categories.contains "application" then
    ["Configuration errors alongside application failures — misconfiguration is a likely root cause"]
   else [])

/-- JS `.replace(/_/g, ' ')`. -/
def underscoresToSpaces (s : String) : String :=
  ⟨s.data.map (fun c => if c = '_' then ' ' else c)⟩

/-- JS `.replace(/\b\w/g, (c) => c.toUpperCase())`: uppercase every word
character that follows a non-word character or the start. -/
def titleCaseWords (s : String) : String :=
  ⟨go s.data none⟩
where
  go : List Char → Option Char → List Char
  | [], _ => []
  | c :: rest, prev =>
    let isStart := jsWordChar c && !((prev.map jsWordChar).getD false)
    (if isStart then c.toUpper else c) :: go rest (some c)

/-- generateIncidentTitle of explanation-generator.ts. -/
def generateIncidentTitle (exps : List LogExplanation) (topCategory : String)
    (severity : String) : String :=
  match exps.filter (fun e => e.patternId ≠ "unknown") with
  | [] => severity ++ " Incident — Unrecognized Errors Detected"
  | k :: ks =>
    let categoryLabel := titleCaseWords (underscoresToSpaces topCategory)
    let patternCount := (jsSetDedup ((k :: ks).map (fun e => e.patternId))).length
    if patternCount = 1 then
      severity ++ " Incident — " ++ jsSubstr k.summary 80
    else
      severity ++ " Incident — " ++ toString patternCount ++
        " issue types detected across " ++ categoryLabel

/-- generateIncidentSummaryText of explanation-generator.ts. -/
def generateIncidentSummaryText (exps : List LogExplanation)
    (severity : SeverityResult) (affectedSystems : List String)
    (correlations : List String) : String :=
  let firstLine := "Analyzed " ++ toString exps.length ++
    " log entries. Overall severity: " ++ levelName severity.level ++
    " (score: " ++ toString severity.score ++ "/100)."
  let criticalCount := (exps.filter (fun e => e.severity = SeverityLevel.CRITICAL)).length
  let highCount := (exps.filter (fun e => e.severity = SeverityLevel.HIGH)).length
  let lines := [firstLine] ++
    (if 0 < affectedSystems.length then
      ["Affected systems: " ++
        String.intercalate ", " (affectedSystems.map underscoresToSpaces) ++ "."]
     else []) ++
    (if 0 < criticalCount then
      [toString criticalCount ++ " critical-severity log(s) require immediate attention."]
     else []) ++
    (if 0 < highCount then [toString highCount ++ " high-severity log(s) detected."] else []) ++
    (if 0 < correlations.length then
      ["Correlations found: " ++ String.intercalate "; " correlations ++ "."]
     else [])
  String.intercalate " " lines

/-- buildIncidentSummary of explanation-generator.ts. -/
def buildIncidentSummary (explanations : List LogExplanation) : IncidentSummary :=
  if explanations.length = 0 then
    { title := "No Logs Provided"
      summary := "No log entries were provided for incident analysis."
      severity := .LOW
      severityScore := 0
      rootCauseChain := []
      affectedSystems := []
      timeline := []
      recommendedActions := []
      totalLogsAnalyzed := 0
      categoryBreakdown := []
      correlations := [] }
  else
    let severityResults := explanations.map (fun e =>
      SeverityResult.mk e.severity e.severityScore "")
    let aggregatedSeverity := aggregateSeverity severityResults
    let categoryBreakdown := categoryBreakdownOf explanations
    let affectedSystems := jsSetDedup
      ((explanations.filter (fun e => e.category ≠ "unknown")).map (fun e => e.category))
    let timeline := insSort tlLe (explanations.map timelineEventOf)
    let rootCauseChain := jsSetDedup
      ((explanations.filter (fun e => e.patternId ≠ "unknown")).map (fun e => e.rootCause))
    let uniqueFixes := (jsSetDedup (explanations.map (fun e => e.recommendedFixes)).flatten).take 10
    let correlations := detectCorrelations explanations
    let sortedCats := insSort (fun (a b : String × Nat) => decide (b.2 ≤ a.2)) categoryBreakdown
    let topCategory := match sortedCats with
      | t :: _ => t.1
      | [] => "unknown"
    let title := generateIncidentTitle explanations topCategory
      (levelName aggregatedSeverity.level)
    let summary := generateIncidentSummaryText explanations aggregatedSeverity
      affectedSystems correlations
    { title := title
      summary := summary
      severity := aggregatedSeverity.level
      severityScore := aggregatedSeverity.score
      rootCauseChain := rootCauseChain
      affectedSystems := affectedSystems
      timeline := timeline
      recommendedActions := uniqueFixes
      totalLogsAnalyzed := explanations.length
      categoryBreakdown := categoryBreakdown
      correlations := correlations }

-- ── logs.service.ts ───────────────────────────────────────

/-- explainLog of logs.service.ts: the full single-log pipeline, with the
Rule Base passed as an explicit argument. -/
def explainLog (registry : List LogPattern) (rawLog : String)
    (source : Option String := none) : LogExplanation :=
  let md0 := parseLogLine rawLog
  let md := if jsTruthy source then { md0 with source := source } else md0
  let found := findMatchingPatterns registry rawLog
  let topMatch := found.head?
  let severity := calculateSeverity rawLog (topMatch.map (fun m => m.1)) md.logLevel
  buildExplanation rawLog (topMatch.map (fun m => m.1)) md severity
    (match topMatch with
     | some m => m.2
     | none => 0)

-- ── Order lemmas for lexLe ────────────────────────────────

theorem lexLe_total (x y : List Char) : lexLe x y = true ∨ lexLe y x = true := by
  induction x generalizing y with
  | nil => left; rfl
  | cons a as ih =>
    cases y with
    | nil => right; rfl
    | cons b bs =>
      by_cases hab : a.toNat < b.toNat
      · left; simp [lexLe, hab]
      · by_cases hba : b.toNat < a.toNat
        · right; simp [lexLe, hba]
        · rcases ih bs with h | h
          · left; simp [lexLe, hab, hba, h]
          · right; simp [lexLe, hab, hba, h]

theorem lexLe_trans (x y z : List Char) (h1 : lexLe x y = true)
    (h2 : lexLe y z = true) : lexLe x z = true := by
  induction x generalizing y z with
  | nil => rfl
  | cons a as ih =>
    cases y with
    | nil => simp [lexLe] at h1
    | cons b bs =>
      cases z with
      | nil => simp [lexLe] at h2
      | cons c cs =>
        simp only [lexLe] at h1 h2 ⊢
        split_ifs at h1 h2 ⊢ <;>
          first
          | rfl
          | omega
          | (exact ih bs cs h1 h2)

-- ── Lemmas for the stable insertion sort ──────────────────

theorem ordInsert_perm (le : α → α → Bool) (x : α) (l : List α) :
    (ordInsert le x l).Perm (x :: l) := by
  induction l with
  | nil => simp [ordInsert]
  | cons y l ih =>
    simp only [ordInsert]
    split
    · exact List.Perm.refl _
    · exact (ih.cons y).trans (List.Perm.swap x y l)

theorem insSort_perm (le : α → α → Bool) (l : List α) : (insSort le l).Perm l := by
  induction l with
  | nil => simp [insSort]
  | cons x l ih =>
    simp only [insSort]
    exact (ordInsert_perm le x (insSort le l)).trans (ih.cons x)

theorem pairwise_ordInsert (le : α → α → Bool)
    (htot : ∀ a b, le a b = true ∨ le b a = true)
    (htrans : ∀ a b c, le a b = true → le b c = true → le a c = true)
    (x : α) (l : List α) (hl : l.Pairwise (fun a b => le a b = true)) :
    (ordInsert le x l).Pairwise (fun a b => le a b = true) := by
  induction l with
  | nil => simp [ordInsert]
  | cons y l ih =>
    rcases List.pairwise_cons.1 hl with ⟨hy, hl'⟩
    simp only [ordInsert]
    split
    case isTrue hxy =>
      refine List.pairwise_cons.2 ⟨?_, hl⟩
      intro z hz
      rcases List.mem_cons.1 hz with rfl | hz'
      · exact hxy
      · exact htrans x y z hxy (hy z hz')
    case isFalse hxy =>
      have hyx : le y x = true := by
        rcases htot x y with h | h
        · exact absurd h hxy
        · exact h
      refine List.pairwise_cons.2 ⟨?_, ih hl'⟩
      intro z hz
      have hz2 : z = x ∨ z ∈ l := by
        have := (ordInsert_perm le x l).mem_iff.1 hz
        simpa using this
      rcases hz2 with rfl | hz'
      · exact hyx
      · exact hy z hz'

theorem pairwise_insSort (le : α → α → Bool)
    (htot : ∀ a b, le a b = true ∨ le b a = true)
    (htrans : ∀ a b c, le a b = true → le b c = true → le a c = true)
    (l : List α) : (insSort le l).Pairwise (fun a b => le a b = true) := by
  induction l with
  | nil => simp [insSort]
  | cons x l ih => exact pairwise_ordInsert le htot htrans x _ ih

theorem filter_ordInsert_pos (le : α → α → Bool) (p : α → Bool) (x : α)
    (hx : p x = true) (hle : ∀ y, le x y = false → p y = false) (l : List α) :
    (ordInsert le x l).filter p = x :: l.filter p := by
  induction l with
  | nil => simp [ordInsert, hx]
  | cons y l ih =>
    simp only [ordInsert]
    split
    case isTrue => simp [List.filter_cons, hx]
    case isFalse hxy =>
      have hpy : p y = false := hle y (by simpa using hxy)
      simp [List.filter_cons, hpy, ih]

theorem filter_ordInsert_neg (le : α → α → Bool) (p : α → Bool) (x : α)
    (hx : p x = false) (l : List α) :
    (ordInsert le x l).filter p = l.filter p := by
  induction l with
  | nil => simp [ordInsert, hx]
  | cons y l ih =>
    simp only [ordInsert]
    split
    · simp [List.filter_cons, hx]
    · simp [List.filter_cons, ih]

theorem filter_insSort (le : α → α → Bool) (p : α → Bool)
    (hp : ∀ x y, p x = true → le x y = false → p y = false) (l : List α) :
    (insSort le l).filter p = l.filter p := by
  induction l with
  | nil => rfl
  | cons x l ih =>
    simp only [insSort]
    by_cases hx : p x = true
    · rw [filter_ordInsert_pos le p x hx (fun y h => hp x y hx h), ih,
        List.filter_cons, if_pos hx]
    · have hx' : p x = false := by simpa using hx
      rw [filter_ordInsert_neg le p x hx', ih, List.filter_cons]
      simp [hx']

-- ── Helper lemmas for the scorer ──────────────────────────

theorem foldl_max_bounds (rest : List SeverityResult) (m : Int)
    (hm : 0 ≤ m ∧ m ≤ 100) (h : ∀ x ∈ rest, 0 ≤ x.score ∧ x.score ≤ 100) :
    0 ≤ rest.foldl (fun a x => max a x.score) m ∧
      rest.foldl (fun a x => max a x.score) m ≤ 100 := by
  induction rest generalizing m with
  | nil => simpa using hm
  | cons x rest ih =>
    simp only [List.foldl_cons]
    refine ih (max m x.score) ⟨?_, ?_⟩ (fun y hy => h y (List.mem_cons_of_mem x hy))
    · exact le_trans hm.1 (le_max_left _ _)
    · exact max_le hm.2 (h x (List.mem_cons_self x rest)).2

theorem foldl_max_eq_foldr (rest : List SeverityResult) (a : Int) (ha : 0 ≤ a) :
    rest.foldl (fun m x => max m x.score) a =
      max a ((rest.map (fun r => r.score)).foldr max 0) := by
  induction rest generalizing a with
  | nil =>
    simp only [List.foldl_nil, List.map_nil, List.foldr_nil]
    exact (max_eq_left ha).symm
  | cons x rest ih =>
    simp only [List.foldl_cons, List.map_cons, List.foldr_cons]
    rw [ih (max a x.score) (le_trans ha (le_max_left _ _)), max_assoc]

/-- C7: every SeverityResult produced by the per-log scorer, and by the
aggregate scorer on per-log results (scores within 0..100), has
`0 ≤ score ≤ 100` and `level = scoreToLevel score`. -/
theorem severity_results_in_bounds :
    (∀ (rawLog : String) (mp : Option LogPattern) (lvl : Option String),
      0 ≤ (calculateSeverity rawLog mp lvl).score ∧
        (calculateSeverity rawLog mp lvl).score ≤ 100 ∧
        (calculateSeverity rawLog mp lvl).level =
          scoreToLevel (calculateSeverity rawLog mp lvl).score) ∧
    (∀ rs : List SeverityResult, (∀ r ∈ rs, 0 ≤ r.score ∧ r.score ≤ 100) →
      0 ≤ (aggregateSeverity rs).score ∧ (aggregateSeverity rs).score ≤ 100 ∧
        (aggregateSeverity rs).level = scoreToLevel (aggregateSeverity rs).score) := by
  constructor
  · intro raw mp lvl
    cases mp with
    | none =>
      cases h : mapLogLevelToSeverity lvl <;>
        simp [calculateSeverity, h, BASE_SCORES, scoreToLevel]
    | some p =>
      exact ⟨le_max_left 0 _, max_le (by norm_num) (min_le_left _ _), rfl⟩
  · intro rs h
    cases rs with
    | nil => decide
    | cons s rest =>
      have hs := h s (List.mem_cons_self s rest)
      have hM := foldl_max_bounds rest s.score hs
        (fun x hx => h x (List.mem_cons_of_mem s hx))
      refine ⟨?_, ?_, rfl⟩ <;>
      · simp only [aggregateSeverity]
        split_ifs <;> omega

/-- Witness for C7 at a concrete list of per-log results. -/
theorem severity_results_in_bounds_witness :
    0 ≤ (aggregateSeverity [⟨SeverityLevel.CRITICAL, 85, ""⟩,
        ⟨SeverityLevel.CRITICAL, 90, ""⟩]).score ∧
      (aggregateSeverity [⟨SeverityLevel.CRITICAL, 85, ""⟩,
        ⟨SeverityLevel.CRITICAL, 90, ""⟩]).score ≤ 100 ∧
      (aggregateSeverity [⟨SeverityLevel.CRITICAL, 85, ""⟩,
        ⟨SeverityLevel.CRITICAL, 90, ""⟩]).level =
        scoreToLevel (aggregateSeverity [⟨SeverityLevel.CRITICAL, 85, ""⟩,
          ⟨SeverityLevel.CRITICAL, 90, ""⟩]).score :=
  severity_results_in_bounds.2
    [⟨SeverityLevel.CRITICAL, 85, ""⟩, ⟨SeverityLevel.CRITICAL, 90, ""⟩] (by decide)

/-- Aggregate score as §4.5 of the spec words it: the maximum per-log
score, plus +5 when at least 3 logs scored ≥ 55, plus +5 when at least 5
did, plus +10 when at least 2 logs scored ≥ 80, clamped once to 100.
Spec-side definition, compared against `aggregateSeverity`. -/
def specAggregateScore (rs : List SeverityResult) : Int :=
  let maxScore := (rs.map (fun r => r.score)).foldr max 0
  let highCount := (rs.filter (fun r => 55 ≤ r.score)).length
  let criticalCount := (rs.filter (fun r => 80 ≤ r.score)).length
  min (maxScore + (if 3 ≤ highCount then 5 else 0) + (if 5 ≤ highCount then 5 else 0) +
    (if 2 ≤ criticalCount then 10 else 0)) 100

/-- C8: on a non-empty list of per-log results the aggregate scorer
computes exactly the spec formula (boosts stack, single clamp), and the
level is derived from that score. -/
theorem aggregate_score_formula (rs : List SeverityResult) (hne : rs ≠ [])
    (hb : ∀ r ∈ rs, 0 ≤ r.score ∧ r.score ≤ 100) :
    (aggregateSeverity rs).score = specAggregateScore rs ∧
    (aggregateSeverity rs).level = scoreToLevel (specAggregateScore rs) := by
  cases rs with
  | nil => exact absurd rfl hne
  | cons s rest =>
    have hs := hb s (List.mem_cons_self s rest)
    have hEq := foldl_max_eq_foldr rest s.score hs.1
    have hM := foldl_max_bounds rest s.score hs
      (fun x hx => hb x (List.mem_cons_of_mem s hx))
    rw [hEq] at hM
    have key : (aggregateSeverity (s :: rest)).score = specAggregateScore (s :: rest) := by
      simp only [aggregateSeverity, specAggregateScore, List.map_cons, List.foldr_cons]
      rw [hEq]
      split_ifs <;> omega
    refine ⟨key, ?_⟩
    have hlev : (aggregateSeverity (s :: rest)).level =
        scoreToLevel ((aggregateSeverity (s :: rest)).score) := rfl
    rw [hlev, key]

/-- Witness for C8: two logs at 85 and 90 get the +10 boost and clamp
to 100. -/
theorem aggregate_score_formula_witness :
    (aggregateSeverity [⟨SeverityLevel.CRITICAL, 85, ""⟩,
      ⟨SeverityLevel.CRITICAL, 90, ""⟩]).score = 100 := by
  have h := aggregate_score_formula
    [⟨SeverityLevel.CRITICAL, 85, ""⟩, ⟨SeverityLevel.CRITICAL, 90, ""⟩]
    (by decide) (by decide)
  rw [h.1]; decide

-- ── Helper lemmas for the matcher ─────────────────────────

theorem confStep_cases (line : String) (m : ℚ) (f : String → Option Nat)
    (hm : m = 0 ∨ (3/5 ≤ m ∧ m ≤ 95/100)) :
    confStep line m f = 0 ∨ (3/5 ≤ confStep line m f ∧ confStep line m f ≤ 95/100) := by
  cases hf : f line with
  | none => simp only [confStep, hf]; exact hm
  | some len =>
    simp only [confStep, hf]
    right
    have hr : (0:ℚ) ≤ ((len : ℚ) / (line.length : ℚ)) * (3/10) := by positivity
    have hlo : (3/5:ℚ) ≤ min (6/10 + ((len : ℚ) / (line.length : ℚ)) * (3/10)) (95/100) :=
      le_min (by linarith) (by norm_num)
    have hhi : min (6/10 + ((len : ℚ) / (line.length : ℚ)) * (3/10)) (95/100) ≤ 95/100 :=
      min_le_right _ _
    rcases hm with rfl | ⟨h1, h2⟩
    · rw [max_eq_right (le_trans (by norm_num) hlo)]
      exact ⟨hlo, hhi⟩
    · exact ⟨le_trans h1 (le_max_left _ _), max_le h2 hhi⟩

theorem confFold_cases (line : String) (fs : List (String → Option Nat)) (m : ℚ)
    (hm : m = 0 ∨ (3/5 ≤ m ∧ m ≤ 95/100)) :
    fs.foldl (confStep line) m = 0 ∨
      (3/5 ≤ fs.foldl (confStep line) m ∧ fs.foldl (confStep line) m ≤ 95/100) := by
  induction fs generalizing m with
  | nil => simpa using hm
  | cons f fs ih =>
    simp only [List.foldl_cons]
    exact ih (confStep line m f) (confStep_cases line m f hm)

theorem jsRound2_bounds (q : ℚ) (h1 : 3/5 ≤ q) (h2 : q ≤ 99/100) :
    3/5 ≤ jsRound2 q ∧ jsRound2 q ≤ 99/100 := by
  unfold jsRound2
  have hlo : (60:ℤ) ≤ round (q * 100) := by
    rw [round_eq, Int.le_floor]
    push_cast
    linarith
  have hhi : round (q * 100) ≤ (99:ℤ) := by
    rw [round_eq]
    have h := Int.floor_lt.2 (show (q * 100 + 1/2 : ℚ) < ((100:ℤ) : ℚ) by push_cast; linarith)
    omega
  constructor
  · have h60 : (60:ℚ) ≤ ((round (q * 100) : ℤ) : ℚ) := by exact_mod_cast hlo
    linarith
  · have h99 : ((round (q * 100) : ℤ) : ℚ) ≤ 99 := by exact_mod_cast hhi
    linarith

theorem withKw_bounds (base kb : ℚ) (h1 : 3/5 ≤ base) (h2 : 0 ≤ kb) :
    3/5 ≤ min (base + kb) (99/100) ∧ min (base + kb) (99/100) ≤ 99/100 :=
  ⟨le_min (by linarith) (by norm_num), min_le_right _ _⟩

theorem boost_bounds (w : ℚ) (h1 : 3/5 ≤ w) :
    3/5 ≤ min (w + 1/10) (99/100) ∧ min (w + 1/10) (99/100) ≤ 99/100 :=
  ⟨le_min (by linarith) (by norm_num), min_le_right _ _⟩

theorem applyCodeBoost_bounds (line : String) (ec : Option (List String)) (w : ℚ)
    (h1 : 3/5 ≤ w) (h2 : w ≤ 99/100) :
    3/5 ≤ applyCodeBoost line ec w ∧ applyCodeBoost line ec w ≤ 99/100 := by
  cases ec with
  | none => simpa [applyCodeBoost] using ⟨h1, h2⟩
  | some codes =>
    simp only [applyCodeBoost]
    split_ifs with hany
    · exact boost_bounds w h1
    · exact ⟨h1, h2⟩

theorem ruleConfidence_bounds (line : String) (p : LogPattern) (c : ℚ)
    (h : ruleConfidence line p = some c) : 3/5 ≤ c ∧ c ≤ 99/100 := by
  simp only [ruleConfidence] at h
  split_ifs at h with hlen hb
  rw [Option.some.injEq] at h
  subst h
  rcases confFold_cases line p.patterns 0 (Or.inl rfl) with h0 | ⟨hb1, hb2⟩
  · rw [h0] at hb
    exact absurd hb (by norm_num)
  · have hkb : (0:ℚ) ≤ min (((p.keywords.filter (fun k =>
        containsSub (jsToLower line) (jsToLower k))).length : ℚ) * (5/100)) (15/100) :=
      le_min (by positivity) (by norm_num)
    have hw := withKw_bounds _ _ hb1 hkb
    have hX := applyCodeBoost_bounds line p.errorCodes _ hw.1 hw.2
    exact jsRound2_bounds _ hX.1 hX.2

/-- C6: the matcher returns exactly the candidate rules (each with nonzero
confidence), ordered non-increasingly by confidence, and entries of equal
confidence keep Rule Base iteration order. -/
theorem matcher_exact_sorted_stable (patterns : List LogPattern) (line : String) :
    (findMatchingPatterns patterns line).Perm (candidateList patterns line) ∧
    (∀ m ∈ candidateList patterns line, 0 < m.2) ∧
    List.Pairwise (fun a b => b.2 ≤ a.2) (findMatchingPatterns patterns line) ∧
    (∀ c : ℚ, (findMatchingPatterns patterns line).filter (fun m => decide (m.2 = c)) =
      (candidateList patterns line).filter (fun m => decide (m.2 = c))) := by
  have htot : ∀ a b : LogPattern × ℚ, confGe a b = true ∨ confGe b a = true := by
    intro a b
    rcases le_total b.2 a.2 with h | h
    · exact Or.inl (decide_eq_true h)
    · exact Or.inr (decide_eq_true h)
  have htrans : ∀ a b c : LogPattern × ℚ,
      confGe a b = true → confGe b c = true → confGe a c = true := by
    intro a b c h1 h2
    exact decide_eq_true (le_trans (of_decide_eq_true h2) (of_decide_eq_true h1))
  refine ⟨insSort_perm _ _, ?_, ?_, ?_⟩
  · intro m hm
    rcases List.mem_filterMap.1 hm with ⟨p, _, hmap⟩
    rcases Option.map_eq_some'.1 hmap with ⟨c, hc, hpc⟩
    have hbnd := ruleConfidence_bounds line p c hc
    rw [← hpc]
    exact lt_of_lt_of_le (by norm_num) hbnd.1
  · exact (pairwise_insSort confGe htot htrans _).imp (fun h => of_decide_eq_true h)
  · intro c
    refine filter_insSort confGe _ ?_ _
    intro x y hx hxy
    have hx' : x.2 = c := of_decide_eq_true hx
    have hlt : x.2 < y.2 := lt_of_not_le (by simpa [confGe] using hxy)
    exact decide_eq_false (by rw [← hx']; exact ne_of_gt hlt)

/-- C5: every matcher candidate has confidence strictly between 0 and 1
(inclusive above), and an unmatched line yields a LogExplanation whose
confidence is exactly 0. -/
theorem confidence_bounds_and_unmatched_zero (patterns : List LogPattern) (line : String) :
    (∀ m ∈ findMatchingPatterns patterns line, 0 < m.2 ∧ m.2 ≤ 1) ∧
    (findMatchingPatterns patterns line = [] →
      ∀ src : Option String, (explainLog patterns line src).confidence = 0) := by
  constructor
  · intro m hm
    have hm' : m ∈ candidateList patterns line :=
      (insSort_perm confGe (candidateList patterns line)).mem_iff.1 hm
    rcases List.mem_filterMap.1 hm' with ⟨p, _, hmap⟩
    rcases Option.map_eq_some'.1 hmap with ⟨c, hc, hpc⟩
    have hbnd := ruleConfidence_bounds line p c hc
    rw [← hpc]
    exact ⟨lt_of_lt_of_le (by norm_num) hbnd.1, le_trans hbnd.2 (by norm_num)⟩
  · intro hempty src
    simp only [explainLog, hempty]
    simp [buildExplanation, buildUnknownExplanation]

/-- Concrete rule used by witnesses: one abstract matcher that reports a
4-character match when the line contains "test". -/
def wRule : LogPattern :=
  { id := "W_TEST"
    name := "Witness Test"
    category := "database"
    patterns := [fun s => if containsSub (jsToLower s) "test" then some 4 else none]
    keywords := ["test"]
    errorCodes := none
    severity := .HIGH
    severityModifiers := none
    explanation := ⟨"Witness summary", "Witness root cause", ["c"], ["f"], none⟩ }

/-- Confidence of `wRule` against the line "test": full match of 4 of 4
characters gives 0.9, one keyword hit adds 0.05. -/
theorem wRule_conf : ruleConfidence "test" wRule = some (19/20) := by
  have hm : containsSub (jsToLower "test") "test" = true := by decide
  have hm2 : containsSub (jsToLower "test") (jsToLower "test") = true := by decide
  have hlen : "test".length = 4 := by decide
  simp only [ruleConfidence, wRule, confStep, List.foldl, hm, if_true, List.filter, hm2,
    applyCodeBoost, jsRound2, hlen]
  norm_num [min_def, max_def]

theorem wRule_candidates : candidateList [wRule] "test" = [(wRule, 19/20)] := by
  simp [candidateList, wRule_conf]

theorem wRule_matches : findMatchingPatterns [wRule] "test" = [(wRule, 19/20)] := by
  simp [findMatchingPatterns, wRule_candidates, insSort, ordInsert]

/-- Witness for C5 at a concrete rule base and lines. -/
theorem confidence_bounds_and_unmatched_zero_witness :
    ((0:ℚ) < 19/20 ∧ ((19:ℚ)/20) ≤ 1) ∧ (explainLog [wRule] "zzz" none).confidence = 0 := by
  have hmem : (wRule, (19:ℚ)/20) ∈ findMatchingPatterns [wRule] "test" := by
    rw [wRule_matches]
    exact List.mem_singleton.2 rfl
  have hempty : findMatchingPatterns [wRule] "zzz" = [] := rfl
  exact ⟨(confidence_bounds_and_unmatched_zero [wRule] "test").1 (wRule, (19:ℚ)/20) hmem,
    (confidence_bounds_and_unmatched_zero [wRule] "zzz").2 hempty none⟩

/-- Witness for C6 at a concrete rule base and line. -/
theorem matcher_exact_sorted_stable_witness :
    (findMatchingPatterns [wRule] "test").Perm (candidateList [wRule] "test") ∧
      (0:ℚ) < 19/20 := by
  have hmem : (wRule, (19:ℚ)/20) ∈ candidateList [wRule] "test" := by
    rw [wRule_candidates]
    exact List.mem_singleton.2 rfl
  exact ⟨(matcher_exact_sorted_stable [wRule] "test").1,
    (matcher_exact_sorted_stable [wRule] "test").2.1 (wRule, (19:ℚ)/20) hmem⟩

-- ── Timeline ordering (C9) ────────────────────────────────

/-- Order on optional timestamps implied by the comparator: timestamped
events lexicographically non-decreasing, and never a missing timestamp
before a present one. -/
def tlOrdOpt : Option String → Option String → Prop
  | some x, some y => lexLe x.data y.data = true
  | some _, none => True
  | none, none => True
  | none, some _ => False

/-- Order on timeline events implied by the comparator. -/
def tlOrdered (a b : TimelineEvent) : Prop := tlOrdOpt a.timestamp b.timestamp

theorem tlCmpLe_total (x y : Option String) : tlCmpLe x y = true ∨ tlCmpLe y x = true := by
  cases x <;> cases y
  · exact Or.inl rfl
  · exact Or.inr rfl
  · exact Or.inl rfl
  · exact lexLe_total _ _

theorem tlCmpLe_trans (x y z : Option String) (h1 : tlCmpLe x y = true)
    (h2 : tlCmpLe y z = true) : tlCmpLe x z = true := by
  cases x <;> cases y <;> cases z <;> simp only [tlCmpLe] at h1 h2 ⊢ <;>
    first
    | rfl
    | exact h1
    | exact h2
    | exact Bool.noConfusion h1
    | exact Bool.noConfusion h2
    | exact lexLe_trans _ _ _ h1 h2

theorem tlCmpLe_imp (x y : Option String) (h : tlCmpLe x y = true) : tlOrdOpt x y := by
  cases x <;> cases y <;> simp only [tlCmpLe, tlOrdOpt] at h ⊢ <;> trivial

theorem tlCmpLe_none_false (x y : Option String) (hx : x.isNone = true)
    (hxy : tlCmpLe x y = false) : y.isNone = false := by
  cases x <;> cases y <;> simp_all [tlCmpLe]

theorem tlLe_total (a b : TimelineEvent) : tlLe a b = true ∨ tlLe b a = true :=
  tlCmpLe_total a.timestamp b.timestamp

theorem tlLe_trans (a b c : TimelineEvent) (h1 : tlLe a b = true)
    (h2 : tlLe b c = true) : tlLe a c = true :=
  tlCmpLe_trans a.timestamp b.timestamp c.timestamp h1 h2

/-- C9: the incident timeline has one event per input explanation with the
summary truncated to 150 characters, events are ordered with timestamped
ones first in non-decreasing lexicographic timestamp order, and the
timestamp-less events keep their relative input order. -/
theorem timeline_one_event_sorted_stable (exps : List LogExplanation) (hne : exps ≠ []) :
    (buildIncidentSummary exps).timeline.Perm (exps.map timelineEventOf) ∧
    (∀ e : LogExplanation, (timelineEventOf e).summary = jsSubstr e.summary 150 ∧
      (timelineEventOf e).summary.length ≤ 150) ∧
    List.Pairwise tlOrdered (buildIncidentSummary exps).timeline ∧
    (buildIncidentSummary exps).timeline.filter (fun ev => ev.timestamp.isNone) =
      (exps.map timelineEventOf).filter (fun ev => ev.timestamp.isNone) := by
  have h0 : ¬(exps.length = 0) := fun h => hne (List.length_eq_zero.1 h)
  have htl : (buildIncidentSummary exps).timeline = insSort tlLe (exps.map timelineEventOf) := by
    simp only [buildIncidentSummary, if_neg h0]
  refine ⟨?_, ?_, ?_, ?_⟩
  · rw [htl]
    exact insSort_perm _ _
  · intro e
    refine ⟨rfl, ?_⟩
    show (e.summary.data.take 150).length ≤ 150
    exact List.length_take_le 150 e.summary.data
  · rw [htl]
    refine (pairwise_insSort tlLe tlLe_total tlLe_trans _).imp ?_
    intro a b h
    exact tlCmpLe_imp a.timestamp b.timestamp h
  · rw [htl]
    refine filter_insSort tlLe _ ?_ _
    intro x y hx hxy
    exact tlCmpLe_none_false x.timestamp y.timestamp hx hxy

/-- Concrete explanations used by the C9 witness. -/
def wExpA : LogExplanation :=
  { rawLog := "a", patternId := "P1", summary := "summary a", category := "database",
    severity := .HIGH, severityScore := 70, rootCause := "r1", possibleCauses := ["c"],
    recommendedFixes := ["f"], metadata := [], timestamp := some "2026-02-11T10:31:00Z",
    source := none, confidence := 1/2, engine := "rule-based" }

/-- Second concrete explanation (no timestamp) for the C9 witness. -/
def wExpB : LogExplanation :=
  { rawLog := "b", patternId := "P2", summary := "summary b", category := "network",
    severity := .MEDIUM, severityScore := 40, rootCause := "r2", possibleCauses := ["c"],
    recommendedFixes := ["f"], metadata := [], timestamp := none,
    source := none, confidence := 1/2, engine := "rule-based" }

/-- Witness for C9 at a concrete two-explanation incident. -/
theorem timeline_one_event_sorted_stable_witness :
    (buildIncidentSummary [wExpA, wExpB]).timeline.Perm ([wExpA, wExpB].map timelineEventOf) ∧
    (∀ e : LogExplanation, (timelineEventOf e).summary = jsSubstr e.summary 150 ∧
      (timelineEventOf e).summary.length ≤ 150) ∧
    List.Pairwise tlOrdered (buildIncidentSummary [wExpA, wExpB]).timeline ∧
    (buildIncidentSummary [wExpA, wExpB]).timeline.filter (fun ev => ev.timestamp.isNone) =
      ([wExpA, wExpB].map timelineEventOf).filter (fun ev => ev.timestamp.isNone) :=
  timeline_one_event_sorted_stable [wExpA, wExpB] (List.cons_ne_nil _ _)

-- ── Pipeline totality and the empty string (C4) ───────────

/-- C4: the single-log pipeline is a total function producing a complete
LogExplanation for every input, and the empty string extracts no metadata,
matches no rule (for any rule base), takes the unknown fallback with
confidence 0, and scores the no-level MEDIUM default 40. -/
theorem pipeline_total_and_empty_default (registry : List LogPattern) :
    (∀ (s : String) (src : Option String),
      (explainLog registry s src).rawLog = s ∧
        (explainLog registry s src).engine = "rule-based") ∧
    parseLogLine "" = { messageBody := "" } ∧
    findMatchingPatterns registry "" = [] ∧
    (explainLog registry "" none).patternId = "unknown" ∧
    (explainLog registry "" none).category = "unknown" ∧
    (explainLog registry "" none).confidence = 0 ∧
    (explainLog registry "" none).severityScore = 40 ∧
    (explainLog registry "" none).severity = SeverityLevel.MEDIUM ∧
    (explainLog registry "" none).metadata = [] := by
  have hrc : ∀ p, ruleConfidence "" p = none := fun p => rfl
  have hcand : candidateList registry "" = [] := by
    simp [candidateList, hrc]
  have hfm : findMatchingPatterns registry "" = [] := by
    rw [findMatchingPatterns, hcand]
    rfl
  have hexp : explainLog registry "" none =
      buildUnknownExplanation "" (parseLogLine "")
        (calculateSeverity "" none (parseLogLine "").logLevel) := by
    simp [explainLog, hfm, jsTruthy, buildExplanation]
  refine ⟨?_, by decide, hfm, ?_, ?_, ?_, ?_, ?_, ?_⟩
  · intro s src
    unfold explainLog
    cases h : (findMatchingPatterns registry s).head? with
    | none => simp [h, buildExplanation, buildUnknownExplanation]
    | some m => simp [h, buildExplanation]
  all_goals rw [hexp]; decide

-- ── Severity of unmatched logs by level (C1) ──────────────

/-- Case analysis of mapLogLevelToSeverity over the four level families of
severity-scorer.ts (absent level → MEDIUM; unrecognized level → LOW). -/
theorem mapLogLevel_cases (lvl : Option String) :
    (jsTruthy lvl = false → mapLogLevelToSeverity lvl = .MEDIUM) ∧
    (∀ s, lvl = some s → jsTruthy lvl = true →
      ((jsToUpper s ∈ (["EMERG", "EMERGENCY", "FATAL", "CRIT", "CRITICAL"] : List String) →
          mapLogLevelToSeverity lvl = .CRITICAL) ∧
       (jsToUpper s ∈ (["ERR", "ERROR", "ALERT"] : List String) →
          mapLogLevelToSeverity lvl = .HIGH) ∧
       (jsToUpper s ∈ (["WARN", "WARNING", "NOTICE"] : List String) →
          mapLogLevelToSeverity lvl = .MEDIUM) ∧
       (jsToUpper s ∉ (["EMERG", "EMERGENCY", "FATAL", "CRIT", "CRITICAL",
            "ERR", "ERROR", "ALERT", "WARN", "WARNING", "NOTICE"] : List String) →
          mapLogLevelToSeverity lvl = .LOW))) := by
  constructor
  · intro h
    simp [mapLogLevelToSeverity, h]
  · rintro s rfl ht
    refine ⟨?_, ?_, ?_, ?_⟩ <;> intro hu
    · simp only [List.mem_cons, List.mem_singleton, List.not_mem_nil, or_false] at hu
      rcases hu with h | h | h | h | h <;> simp [mapLogLevelToSeverity, ht, h]
    · simp only [List.mem_cons, List.mem_singleton, List.not_mem_nil, or_false] at hu
      rcases hu with h | h | h <;> simp [mapLogLevelToSeverity, ht, h]
    · simp only [List.mem_cons, List.mem_singleton, List.not_mem_nil, or_false] at hu
      rcases hu with h | h | h <;> simp [mapLogLevelToSeverity, ht, h]
    · simp only [List.mem_cons, List.mem_singleton, List.not_mem_nil, or_false,
        not_or] at hu
      obtain ⟨h1, h2, h3, h4, h5, h6, h7, h8, h9, h10, h11⟩ := hu
      simp [mapLogLevelToSeverity, ht, h1, h2, h3, h4, h5, h6, h7, h8, h9, h10, h11]

/-- C1 counterexample: an unmatched log with extracted level INFO scores
the LOW base 15, not the MEDIUM base 40 the claim asserts for
"any other level". -/
theorem unknown_level_default_counterexample :
    (calculateSeverity "INFO: healthy" none (some "INFO")).score = 15 ∧
    (calculateSeverity "INFO: healthy" none (some "INFO")).level = SeverityLevel.LOW ∧
    ¬((calculateSeverity "INFO: healthy" none (some "INFO")).score = 40) := by decide

/-- C1 (amended): with no matched rule, the scorer returns the base score
of the level mapped by families EMERG/EMERGENCY/FATAL/CRIT/CRITICAL → 90
CRITICAL, ERR/ERROR/ALERT → 70 HIGH, WARN/WARNING/NOTICE → 40 MEDIUM,
absent level → 40 MEDIUM, and any other extracted token → 15 LOW. -/
theorem unmatched_severity_by_level (raw : String) (lvl : Option String) :
    (jsTruthy lvl = false →
      (calculateSeverity raw none lvl).score = 40 ∧
      (calculateSeverity raw none lvl).level = SeverityLevel.MEDIUM) ∧
    (∀ s, lvl = some s → jsTruthy lvl = true →
      ((jsToUpper s ∈ (["EMERG", "EMERGENCY", "FATAL", "CRIT", "CRITICAL"] : List String) →
          (calculateSeverity raw none lvl).score = 90 ∧
          (calculateSeverity raw none lvl).level = SeverityLevel.CRITICAL) ∧
       (jsToUpper s ∈ (["ERR", "ERROR", "ALERT"] : List String) →
          (calculateSeverity raw none lvl).score = 70 ∧
          (calculateSeverity raw none lvl).level = SeverityLevel.HIGH) ∧
       (jsToUpper s ∈ (["WARN", "WARNING", "NOTICE"] : List String) →
          (calculateSeverity raw none lvl).score = 40 ∧
          (calculateSeverity raw none lvl).level = SeverityLevel.MEDIUM) ∧
       (jsToUpper s ∉ (["EMERG", "EMERGENCY", "FATAL", "CRIT", "CRITICAL",
            "ERR", "ERROR", "ALERT", "WARN", "WARNING", "NOTICE"] : List String) →
          (calculateSeverity raw none lvl).score = 15 ∧
          (calculateSeverity raw none lvl).level = SeverityLevel.LOW))) := by
  have hsc : (calculateSeverity raw none lvl).score =
      BASE_SCORES (mapLogLevelToSeverity lvl) := rfl
  have hlv : (calculateSeverity raw none lvl).level =
      scoreToLevel (BASE_SCORES (mapLogLevelToSeverity lvl)) := rfl
  have hm := mapLogLevel_cases lvl
  constructor
  · intro h
    rw [hsc, hlv, hm.1 h]
    exact ⟨rfl, by decide⟩
  · intro s hs ht
    have h2 := hm.2 s hs ht
    refine ⟨fun hu => ?_, fun hu => ?_, fun hu => ?_, fun hu => ?_⟩
    · rw [hsc, hlv, h2.1 hu]; exact ⟨rfl, by decide⟩
    · rw [hsc, hlv, h2.2.1 hu]; exact ⟨rfl, by decide⟩
    · rw [hsc, hlv, h2.2.2.1 hu]; exact ⟨rfl, by decide⟩
    · rw [hsc, hlv, h2.2.2.2 hu]; exact ⟨rfl, by decide⟩

/-- Witness for the amended C1 at the level INFO. -/
theorem unmatched_severity_by_level_witness :
    (calculateSeverity "x" none (some "INFO")).score = 15 ∧
    (calculateSeverity "x" none (some "INFO")).level = SeverityLevel.LOW :=
  ((unmatched_severity_by_level "x" (some "INFO")).2 "INFO" rfl (by decide)).2.2.2 (by decide)

-- ── Port extraction and time-of-day fragments (C2) ────────

set_option maxRecDepth 10000 in
/-- C2 failing input: on a line with no IPv4 address, no `port=` token and
no recognized timestamp, the seconds fragment "05" of the time-of-day
token "10:30:05" is returned as the port — the skip test only rejects a
`:NN` that is immediately followed by another `:dd`, which the final
component never is. -/
theorem port_time_fragment_failing_input :
    (parseLogLine "fatal at 10:30:05 host down").ipAddress = none ∧
    jsTest portEqRE "fatal at 10:30:05 host down" = false ∧
    (parseLogLine "fatal at 10:30:05 host down").timestamp = none ∧
    (parseLogLine "fatal at 10:30:05 host down").port = some "05" := by decide

-- ── Unknown-path summary by level (C3) ────────────────────

set_option maxRecDepth 10000 in
/-- C3 counterexample: a pattern-less log at level ALERT, which the claim
places in the error family, gets the informational sentence, not the
error-level sentence. -/
theorem unknown_summary_alert_counterexample :
    (explainLog [] "ALERT: strange event" none).patternId = "unknown" ∧
    (explainLog [] "ALERT: strange event" none).summary =
      "An informational log entry was detected with log level \"ALERT\". No specific issue pattern was matched." ∧
    ¬((explainLog [] "ALERT: strange event" none).summary =
      "An error-level log entry was detected but does not match any known pattern. Manual review is recommended.") := by
  decide

/-- C3 (amended): the unknown-path summary is selected by the extracted
log level with the generator's own error family ERROR/ERR/FATAL/CRIT/
CRITICAL/EMERG (ALERT and EMERGENCY fall through to the informational
sentence); WARN/WARNING give the warning sentence; any other known level
gives the informational sentence naming the level; an absent level gives
the fixed generic sentence. -/
theorem unknown_summary_by_level (md : ParsedLogMetadata) :
    (∀ raw sev, (buildUnknownExplanation raw md sev).summary = unknownSummary md) ∧
    (jsTruthy md.logLevel = false →
      unknownSummary md =
        "This log entry could not be matched to a known pattern in the knowledge base.") ∧
    (∀ s, md.logLevel = some s → jsTruthy md.logLevel = true →
      ((jsToUpper s ∈ (["ERROR", "ERR", "FATAL", "CRIT", "CRITICAL", "EMERG"] : List String) →
          unknownSummary md =
            "An error-level log entry was detected but does not match any known pattern. Manual review is recommended.") ∧
       (jsToUpper s ∈ (["WARN", "WARNING"] : List String) →
          unknownSummary md =
            "A warning-level log entry was detected but does not match any known pattern. It may indicate a non-critical issue.") ∧
       (jsToUpper s ∉ (["ERROR", "ERR", "FATAL", "CRIT", "CRITICAL", "EMERG",
            "WARN", "WARNING"] : List String) →
          unknownSummary md =
            "An informational log entry was detected with log level \"" ++ jsToUpper s ++
              "\". No specific issue pattern was matched."))) := by
  refine ⟨fun raw sev => rfl, ?_, ?_⟩
  · intro h
    simp [unknownSummary, h]
  · intro s hs ht
    rw [hs] at ht
    refine ⟨?_, ?_, ?_⟩ <;> intro hu
    · simp only [List.mem_cons, List.mem_singleton, List.not_mem_nil, or_false] at hu
      rcases hu with h | h | h | h | h | h <;> simp [unknownSummary, ht, hs, h]
    · simp only [List.mem_cons, List.mem_singleton, List.not_mem_nil, or_false] at hu
      rcases hu with h | h <;> simp [unknownSummary, ht, hs, h]
    · simp only [List.mem_cons, List.mem_singleton, List.not_mem_nil, or_false,
        not_or] at hu
      obtain ⟨h1, h2, h3, h4, h5, h6, h7, h8⟩ := hu
      simp [unknownSummary, ht, hs, h1, h2, h3, h4, h5, h6, h7, h8]

/-- Witness for the amended C3 at the level ALERT. -/
theorem unknown_summary_by_level_witness :
    unknownSummary { messageBody := "", logLevel := some "ALERT" } =
      "An informational log entry was detected with log level \"ALERT\". No specific issue pattern was matched." :=
  ((unknown_summary_by_level { messageBody := "", logLevel := some "ALERT" }).2.2
    "ALERT" rfl (by decide)).2.2 (by decide)

-- ── Metadata keys of the two synthesis paths (C10) ────────

/-- C10: the unknown path publishes at most the four keys logLevel,
errorCode, ipAddress and httpStatus and never pid, port, username,
filePath, httpMethod or url, while the matched path includes each of the
ten fields that is present. -/
theorem unknown_metadata_keys (md : ParsedLogMetadata) (raw : String) (sev : SeverityResult) :
    (∀ kv ∈ (buildUnknownExplanation raw md sev).metadata,
      kv.1 = "logLevel" ∨ kv.1 = "errorCode" ∨ kv.1 = "ipAddress" ∨ kv.1 = "httpStatus") ∧
    (∀ kv ∈ (buildUnknownExplanation raw md sev).metadata,
      kv.1 ≠ "pid" ∧ kv.1 ≠ "port" ∧ kv.1 ≠ "username" ∧ kv.1 ≠ "filePath" ∧
      kv.1 ≠ "httpMethod" ∧ kv.1 ≠ "url") ∧
    (∀ (p : LogPattern) (c : ℚ),
      (jsTruthy md.logLevel = true →
        ("logLevel", md.logLevel.getD "") ∈ (buildExplanation raw (some p) md sev c).metadata) ∧
      (jsTruthy md.pid = true →
        ("pid", md.pid.getD "") ∈ (buildExplanation raw (some p) md sev c).metadata) ∧
      (jsTruthy md.ipAddress = true →
        ("ipAddress", md.ipAddress.getD "") ∈ (buildExplanation raw (some p) md sev c).metadata) ∧
      (jsTruthy md.port = true →
        ("port", md.port.getD "") ∈ (buildExplanation raw (some p) md sev c).metadata) ∧
      (jsTruthy md.errorCode = true →
        ("errorCode", md.errorCode.getD "") ∈ (buildExplanation raw (some p) md sev c).metadata) ∧
      (jsTruthy md.username = true →
        ("username", md.username.getD "") ∈ (buildExplanation raw (some p) md sev c).metadata) ∧
      (jsTruthy md.filePath = true →
        ("filePath", md.filePath.getD "") ∈ (buildExplanation raw (some p) md sev c).metadata) ∧
      (jsTruthy md.httpStatus = true →
        ("httpStatus", md.httpStatus.getD "") ∈ (buildExplanation raw (some p) md sev c).metadata) ∧
      (jsTruthy md.httpMethod = true →
        ("httpMethod", md.httpMethod.getD "") ∈ (buildExplanation raw (some p) md sev c).metadata) ∧
      (jsTruthy md.url = true →
        ("url", md.url.getD "") ∈ (buildExplanation raw (some p) md sev c).metadata)) := by
  have hsubset : ∀ kv ∈ unknownMetadataMap md,
      kv.1 = "logLevel" ∨ kv.1 = "errorCode" ∨ kv.1 = "ipAddress" ∨ kv.1 = "httpStatus" := by
    intro kv hkv
    obtain ⟨k, v⟩ := kv
    unfold unknownMetadataMap at hkv
    split_ifs at hkv <;> simp_all <;> tauto
  refine ⟨hsubset, ?_, ?_⟩
  · intro kv hkv
    rcases hsubset kv hkv with h | h | h | h <;> rw [h] <;>
      exact ⟨by decide, by decide, by decide, by decide, by decide, by decide⟩
  · intro p c
    refine ⟨?_, ?_, ?_, ?_, ?_, ?_, ?_, ?_, ?_, ?_⟩ <;> intro h <;>
      · show _ ∈ matchedMetadataMap md
        simp [matchedMetadataMap, h]

/-- Fully populated metadata used by the C10 witness. -/
def wMdFull : ParsedLogMetadata :=
  { timestamp := some "2026-02-11T10:30:00Z", logLevel := some "ERROR",
    source := some "db", pid := some "12", errorCode := some "ECONNREFUSED",
    ipAddress := some "10.0.0.1", port := some "5432", username := some "admin",
    filePath := some "/var/a", httpStatus := some "500", httpMethod := some "GET",
    url := some "/api", messageBody := "m" }

/-- Witness for C10: present pid and port appear on the matched path. -/
theorem unknown_metadata_keys_witness :
    ("port", "5432") ∈
      (buildExplanation "x" (some wRule) wMdFull ⟨SeverityLevel.HIGH, 70, ""⟩ 1).metadata ∧
    ("pid", "12") ∈
      (buildExplanation "x" (some wRule) wMdFull ⟨SeverityLevel.HIGH, 70, ""⟩ 1).metadata := by
  have h := (unknown_metadata_keys wMdFull "x" ⟨SeverityLevel.HIGH, 70, ""⟩).2.2 wRule 1
  exact ⟨h.2.2.2.1 (by decide), h.2.1 (by decide)⟩

end LogExplain
